import Mathlib

/-!
# Verification of the PDF chat session layer

Shallow embedding of the session/context-management core of the
`IA_agent_pdf_interpreter` backend:

* `llm_client.py` — `GeminiClient`: token estimator, system-prompt builder,
  usage breakdown, and the chat call to the remote LLM;
* `pdf_chat_session.py` — `PDFChatSession`: the stateful session aggregate
  (document records, combined content, conversation history, token counters,
  activity timestamps) and its operations;
* the duplicate-name guard of the `add_pdf_to_session` endpoint in `main.py`.

Modelling conventions:
* Python `datetime` values are abstract instants modelled as `Int` (seconds);
  string renderings of dates (`strftime`, `isoformat`) and Python's
  thousands-grouped number formatting are abstracted to `toString`.
* Python dicts with insertion order (`self.pdfs`) are association lists;
  assignment to an existing key keeps its position, a new key goes last.
* The remote LLM is an oracle function; an exception raised by Python code
  is an `Except.error` carrying `str(e)`.
* Float-valued monitoring fields (`percentage_used`, `duration_minutes`,
  `average_tokens_per_exchange`) are omitted: no verified property reads them.
-/

namespace PdfInterpreter

/-- Python truthiness for an optional string: `None` and `""` are falsy. -/
def strTruthy : Option String → Bool
  | none => false
  | some s => !s.isEmpty

/-- `GeminiClient.estimate_tokens` (llm_client.py:92-102):
`return len(text) // 4`. -/
def estimate_tokens (text : String) : Nat :=
  text.length / 4

/-- Python `str.count(pat)` for a non-empty pattern: number of
non-overlapping occurrences, scanning left to right.  Fuel-driven so that it
reduces structurally; the fuel is always instantiated with the length of the
scanned list, which is enough since each step consumes at least one fuel. -/
def countOccAux (pat : List Char) : Nat → List Char → Nat
  | 0, _ => 0
  | _ + 1, [] => 0
  | fuel + 1, c :: rest =>
    if pat.isPrefixOf (c :: rest) then
      1 + countOccAux pat fuel (List.drop (pat.length - 1) rest)
    else
      countOccAux pat fuel rest

/-- `s.count(pat)` from Python (for the non-empty patterns used here). -/
def strCount (s pat : String) : Nat :=
  countOccAux pat.data s.data.length s.data

/-- The base system instruction of `GeminiClient.get_system_prompt`
(llm_client.py:44-57). -/
def base_prompt : String :=
  "Recibirás uno o más documentos PDF con información formal. Tu tarea es resumir y explicar el contenido en lenguaje claro, simple y humano.\n\nPrioriza lo esencial y lo práctico, como si hablaras con alguien ocupado que no tiene tiempo de leer todo el documento.\n\nEvita tecnicismos innecesarios y responde de forma concisa y comprensible.\n\nTambién debes responder preguntas específicas sobre el contenido de los documentos.\n\nCaracterísticas de tus respuestas:\n- Lenguaje claro y directo\n- Resúmenes concisos pero completos\n- Explicaciones como si hablaras con alguien ocupado\n- Respuestas específicas cuando te pregunten sobre los documentos\n- Si hay múltiples documentos, especifica de cuál estás hablando cuando sea relevante"

/-- The multiple-documents wrapping of `get_system_prompt`
(llm_client.py:64-79). -/
def multiPromptWrap (pdf_content : String) : String :=
  base_prompt ++ "\n\nDOCUMENTOS PDF CARGADOS:\n========================\n" ++
    pdf_content ++
    "\n========================\n\nINSTRUCCIONES ESPECIALES:\n- Tienes acceso a MÚLTIPLES documentos PDF\n- Cada documento está claramente separado con su nombre y contenido\n- Cuando respondas, puedes hacer referencia a información de cualquiera de los documentos\n- Si la pregunta se refiere a un documento específico, menciona cuál\n- Si la información está en varios documentos, puedes combinarla en tu respuesta\n- Para resúmenes generales, incluye información relevante de todos los documentos\n\nAhora puedes responder preguntas sobre estos documentos o proporcionar resúmenes si te lo solicitan."

/-- The single-document wrapping of `get_system_prompt`
(llm_client.py:81-88). -/
def singlePromptWrap (pdf_content : String) : String :=
  base_prompt ++ "\n\nDOCUMENTO PDF CARGADO:\n=====================\n" ++
    pdf_content ++
    "\n=====================\n\nAhora puedes responder preguntas sobre este documento o proporcionar un resumen si te lo solicitan."

/-- `GeminiClient.get_system_prompt` (llm_client.py:40-90).  With falsy
`pdf_content` (Python `if pdf_content:`) returns the base instruction;
otherwise branches on `pdf_content.count("DOCUMENTO #") > 1`. -/
def get_system_prompt (pdf_content : Option String) : String :=
  match pdf_content with
  | none => base_prompt
  | some pc =>
    if pc.isEmpty then base_prompt
    else if strCount pc "DOCUMENTO #" > 1 then multiPromptWrap pc
    else singlePromptWrap pc

/-- A conversation turn (entries of `conversation_history`): role, content,
timestamp (`isoformat` string abstracted to the instant itself). -/
structure Turn where
  role : String
  content : String
  timestamp : Int
deriving DecidableEq, Repr

/-- Stand-in for Python `str(conversation_history)` — the exact `repr`
format is irrelevant to every verified property, only that it is a
deterministic function of the history; modelled as a simple rendering. -/
def historyStr (history : List Turn) : String :=
  String.intercalate ";" (history.map fun t => t.role ++ ":" ++ t.content)

/-- Result of `GeminiClient.get_token_usage_info` (llm_client.py:104-136),
minus the float `percentage_used` field. -/
structure TokenInfo where
  message_tokens : Nat
  pdf_tokens : Nat
  base_prompt_tokens : Nat
  history_tokens : Nat
  total_tokens : Nat
  gemini_limit : Nat
deriving DecidableEq, Repr

/-- `GeminiClient.get_token_usage_info` (llm_client.py:104-136). -/
def get_token_usage_info (message : String) (pdf_content : Option String)
    (history : List Turn) : TokenInfo :=
  let message_tokens := estimate_tokens message
  let pdf_tokens := if strTruthy pdf_content then estimate_tokens (pdf_content.getD "") else 0
  let base_prompt_tokens := estimate_tokens (get_system_prompt none)
  let history_tokens := if history.isEmpty then 0 else estimate_tokens (historyStr history)
  { message_tokens := message_tokens
    pdf_tokens := pdf_tokens
    base_prompt_tokens := base_prompt_tokens
    history_tokens := history_tokens
    total_tokens := message_tokens + pdf_tokens + base_prompt_tokens + history_tokens
    gemini_limit := 1000000 }

/-- The outgoing message built inside `GeminiClient.chat`
(llm_client.py:174-180): the system prompt with injected PDF content plus
the user message when `pdf_content` is truthy, the bare message otherwise. -/
def build_full_message (message : String) (pdf_content : Option String) : String :=
  if strTruthy pdf_content then
    get_system_prompt pdf_content ++ "\n\nUsuario: " ++ message
  else
    message

/-- `GeminiClient.chat` (llm_client.py:138-190).  `send` is the remote
model (history it was started with, outgoing message ↦ reply or raised
exception).  The whole body sits in `try/except Exception`: a raised
exception is caught and turned into an ordinary reply string
`"Lo siento, hubo un error al procesar tu mensaje: " + str(e)`; the
function itself never raises, hence its result is always `Except.ok`. -/
def GeminiClient.chat (send : List Turn → String → Except String String)
    (message : String) (pdf_content : Option String)
    (conversation_history : List Turn) : Except String String :=
  match send conversation_history (build_full_message message pdf_content) with
  | Except.ok t => Except.ok t
  | Except.error e =>
      Except.ok ("Lo siento, hubo un error al procesar tu mensaje: " ++ e)

/-- The `info` dict of `pdf_processor.get_pdf_info` as used by the session
layer: `num_pages` and `file_size`. -/
structure PDFInfo where
  num_pages : Nat
  file_size : Nat
deriving DecidableEq, Repr

/-- One entry of `self.pdfs` (pdf_chat_session.py:85-91):
`{content, info, method, uploaded_at, path}`. -/
structure PDFData where
  content : String
  info : PDFInfo
  method : String
  uploaded_at : Int
  path : String
deriving DecidableEq, Repr

/-- One record of `token_usage_history` (pdf_chat_session.py:242-248). -/
structure TokenUsageRecord where
  timestamp : Int
  message_tokens : Nat
  response_tokens : Nat
  total_exchange_tokens : Nat
  cumulative_tokens : Nat
deriving DecidableEq, Repr

/-- The mutable state of `PDFChatSession` (pdf_chat_session.py:21-46).
`pdfs` is the insertion-ordered dict `{filename: pdf_data}` as an
association list; the legacy empty dict `pdf_info = {}` is `none`. -/
structure Session where
  session_id : String
  pdfs : List (String × PDFData)
  combined_pdf_content : Option String
  conversation_history : List Turn
  created_at : Int
  last_activity : Int
  pdf_content : Option String
  pdf_filename : Option String
  pdf_info : Option PDFInfo
  total_tokens_used : Nat
  token_usage_history : List TokenUsageRecord
deriving DecidableEq, Repr

/-- `PDFChatSession.__init__` (pdf_chat_session.py:21-48) at creation
instant `t`. -/
def freshSession (session_id : String) (t : Int) : Session :=
  { session_id := session_id
    pdfs := []
    combined_pdf_content := none
    conversation_history := []
    created_at := t
    last_activity := t
    pdf_content := none
    pdf_filename := none
    pdf_info := none
    total_tokens_used := 0
    token_usage_history := [] }

/-- Python-dict insertion with insertion-order semantics: assignment to an
existing key overwrites in place, a fresh key is appended at the end. -/
def dictInsert (l : List (String × PDFData)) (k : String) (v : PDFData) :
    List (String × PDFData) :=
  if l.any (fun p => p.1 == k) then
    l.map (fun p => if p.1 == k then (k, v) else p)
  else
    l ++ [(k, v)]

/-- Everything of a document's block in the combined content that comes
before the raw extracted text (pdf_chat_session.py:127-137). -/
def blockBefore (i : Nat) (filename : String) (d : PDFData) : String :=
  "\nDOCUMENTO #" ++ toString i ++ ": " ++ filename ++
    "\n===============================================\n📄 Información del documento:\n   - Páginas: " ++
    toString d.info.num_pages ++
    "\n   - Método de extracción: " ++ d.method ++
    "\n   - Fecha de carga: " ++ toString d.uploaded_at ++
    "\n   - Tamaño: " ++ toString d.info.file_size ++
    " bytes\n\n📝 CONTENIDO COMPLETO:\n-----------------------------------------------\n"

/-- Everything of a document's block that comes after the raw extracted
text (pdf_chat_session.py:139-142). -/
def blockAfter (i : Nat) (filename : String) : String :=
  "\n-----------------------------------------------\nFIN DEL DOCUMENTO #" ++
    toString i ++ ": " ++ filename ++
    "\n===============================================\n"

/-- One element of `combined_parts` for the `i`-th document (1-based). -/
def renderBlock (i : Nat) (filename : String) (d : PDFData) : String :=
  blockBefore i filename d ++ d.content ++ blockAfter i filename

/-- The pure content of `_rebuild_combined_content`
(pdf_chat_session.py:118-144): `None` when no documents are present,
otherwise `"\n".join(combined_parts)` with one block per document in
insertion order, numbered from 1. -/
def rebuildCombined (pdfs : List (String × PDFData)) : Option String :=
  if pdfs.isEmpty then none
  else some (String.intercalate "\n"
    ((List.enumFrom 1 pdfs).map fun p => renderBlock p.1 p.2.1 p.2.2))

/-- `_rebuild_combined_content` (pdf_chat_session.py:118-149) as a state
update: recomputes `combined_pdf_content` from `pdfs` and mirrors it into
the legacy `pdf_content` field. -/
def rebuild_combined_content (s : Session) : Session :=
  match rebuildCombined s.pdfs with
  | none => { s with combined_pdf_content := none, pdf_content := none }
  | some c => { s with combined_pdf_content := some c, pdf_content := some c }

/-- `PDFChatSession.load_pdf` (pdf_chat_session.py:55-116).  The
collaborators are supplied as data: `fileExists` is `os.path.exists`,
`pdf_info` the extractor's info dict, `(text, method)` the extraction
result, `now` the `datetime.now()` of the upload, `filename` the resolved
display name (`pdf_name or os.path.basename(pdf_path)`).  Fails (returns
`false`, session untouched) when the file is missing or the extracted text
is empty; otherwise stores the record, refreshes the legacy fields when it
is the only record, and rebuilds the combined content.  Note: it never
touches `last_activity`. -/
def load_pdf (s : Session) (now : Int) (fileExists : Bool)
    (pdf_path filename : String) (pdf_info : PDFInfo)
    (text method : String) : Session × Bool :=
  if !fileExists then (s, false)
  else if text.isEmpty then (s, false)
  else
    let pdfs := dictInsert s.pdfs filename
      { content := text, info := pdf_info, method := method
        uploaded_at := now, path := pdf_path }
    let s := { s with pdfs := pdfs }
    let s :=
      if s.pdfs.length = 1 then
        { s with pdf_content := some text, pdf_filename := some filename
                 pdf_info := some pdf_info }
      else s
    (rebuild_combined_content s, true)

/-- `PDFChatSession.remove_pdf` (pdf_chat_session.py:165-183): removes if
present and rebuilds the combined content, then refreshes the legacy
`pdf_filename` / `pdf_info` fields; returns `false` when the name is not
found.  It never touches `last_activity`. -/
def remove_pdf (s : Session) (filename : String) : Session × Bool :=
  if !(s.pdfs.any (fun p => p.1 == filename)) then (s, false)
  else
    let s := rebuild_combined_content
      { s with pdfs := s.pdfs.eraseP (fun p => p.1 == filename) }
    match s.pdfs with
    | [] => ({ s with pdf_filename := none, pdf_info := none }, true)
    | (k, d) :: _ => ({ s with pdf_filename := some k, pdf_info := some d.info }, true)

/-- `PDFChatSession.has_pdfs` (pdf_chat_session.py:185-187). -/
def Session.has_pdfs (s : Session) : Bool :=
  s.pdfs.length > 0

/-- The extended `token_info` dict of a successful chat result
(pdf_chat_session.py:256-261): the pre-call breakdown plus response and
exchange totals. -/
structure ChatTokenInfo where
  base : TokenInfo
  response_tokens : Nat
  total_exchange_tokens : Nat
  session_total_tokens : Nat
deriving DecidableEq, Repr

/-- The dictionary returned by `PDFChatSession.chat`
(pdf_chat_session.py:200-277).  The display-only `session_info` sub-dict
(session id, legacy filename, history length, float duration) is omitted. -/
structure ChatResult where
  success : Bool
  error : Option String
  response : Option String
  token_info : Option ChatTokenInfo
deriving DecidableEq, Repr

/-- The full effect of one `PDFChatSession.chat` call: the updated session,
the returned dictionary, and — instrumentation for verification — how many
times the Conversation Client (`self.llm_client.chat`) was invoked. -/
structure ChatOutcome where
  session : Session
  result : ChatResult
  llm_calls : Nat
deriving Repr

/-- `PDFChatSession.chat` (pdf_chat_session.py:189-277).  `client` is the
Conversation Client (`self.llm_client.chat`: message, combined content,
history ↦ reply, or a raised exception as `Except.error`); `now` is the
`datetime.now()` stored into `last_activity` at line 209, `now2` the later
`datetime.now()` of the assistant turn's timestamp.  The whole body is in
`try/except Exception`: with no documents it fails fast before any client
call; a client exception yields the structured apology result, with
`last_activity` already updated but no history/token mutation. -/
def PDFChatSession.chat (s : Session)
    (client : String → Option String → List Turn → Except String String)
    (now now2 : Int) (message : String) : ChatOutcome :=
  if !s.has_pdfs then
    { session := s
      result :=
        { success := false, error := some "No PDFs loaded in this session"
          response := none, token_info := none }
      llm_calls := 0 }
  else
    let s := { s with last_activity := now }
    let token_info := get_token_usage_info message s.pdf_content s.conversation_history
    match client message s.combined_pdf_content s.conversation_history with
    | Except.error e =>
        { session := s
          result :=
            { success := false, error := some e
              response := some ("Lo siento, hubo un error al procesar tu mensaje: " ++ e)
              token_info := none }
          llm_calls := 1 }
    | Except.ok response =>
        let response_tokens := estimate_tokens response
        let total_message_tokens := token_info.total_tokens + response_tokens
        let total_used := s.total_tokens_used + total_message_tokens
        let record : TokenUsageRecord :=
          { timestamp := s.last_activity
            message_tokens := token_info.message_tokens
            response_tokens := response_tokens
            total_exchange_tokens := total_message_tokens
            cumulative_tokens := total_used }
        { session :=
            { s with
              conversation_history := s.conversation_history ++
                [{ role := "user", content := message, timestamp := s.last_activity },
                 { role := "assistant", content := response, timestamp := now2 }]
              total_tokens_used := total_used
              token_usage_history := s.token_usage_history ++ [record] }
          result :=
            { success := true, error := none, response := some response
              token_info := some
                { base := token_info, response_tokens := response_tokens
                  total_exchange_tokens := total_message_tokens
                  session_total_tokens := total_used } }
          llm_calls := 1 }

/-- One entry of `get_pdf_list` (pdf_chat_session.py:151-163). -/
structure PDFListItem where
  filename : String
  pages : Nat
  size : Nat
  method : String
  uploaded_at : Int
  tokens : Nat
deriving DecidableEq, Repr

/-- `PDFChatSession.get_pdf_list` (pdf_chat_session.py:151-163). -/
def get_pdf_list (s : Session) : List PDFListItem :=
  s.pdfs.map fun p =>
    { filename := p.1, pages := p.2.info.num_pages, size := p.2.info.file_size
      method := p.2.method, uploaded_at := p.2.uploaded_at
      tokens := estimate_tokens p.2.content }

/-- Python `l[-n:]`. -/
def lastN (n : Nat) (l : List α) : List α :=
  l.drop (l.length - n)

/-- `get_session_summary`'s dictionary (pdf_chat_session.py:279-311),
minus the float fields (`duration_minutes`,
`average_tokens_per_exchange`) and the `**self.pdf_info` splat of
display-only extractor keys. -/
structure SessionSummary where
  session_id : String
  created_at : Int
  last_activity : Int
  pdfs_loaded : Nat
  pdf_list : List PDFListItem
  total_content_length : Nat
  total_estimated_tokens : Nat
  legacy_filename : Option String
  legacy_loaded : Bool
  legacy_content_length : Nat
  legacy_estimated_tokens : Nat
  message_count : Nat
  total_tokens_used : Nat
  token_usage_trailing : List TokenUsageRecord
deriving DecidableEq, Repr

/-- `PDFChatSession.get_session_summary` (pdf_chat_session.py:279-311); the
`if ... else 0` guards are Python truthiness on the optional strings. -/
def get_session_summary (s : Session) : SessionSummary :=
  { session_id := s.session_id
    created_at := s.created_at
    last_activity := s.last_activity
    pdfs_loaded := s.pdfs.length
    pdf_list := get_pdf_list s
    total_content_length :=
      if strTruthy s.combined_pdf_content then (s.combined_pdf_content.getD "").length else 0
    total_estimated_tokens :=
      if strTruthy s.combined_pdf_content then estimate_tokens (s.combined_pdf_content.getD "") else 0
    legacy_filename := s.pdf_filename
    legacy_loaded := strTruthy s.pdf_content
    legacy_content_length :=
      if strTruthy s.pdf_content then (s.pdf_content.getD "").length else 0
    legacy_estimated_tokens :=
      if strTruthy s.pdf_content then estimate_tokens (s.pdf_content.getD "") else 0
    message_count := s.conversation_history.length
    total_tokens_used := s.total_tokens_used
    token_usage_trailing := lastN 10 s.token_usage_history }

/-- `PDFChatSession.is_session_expired` (pdf_chat_session.py:313-324):
`datetime.now() - last_activity > timedelta(minutes=timeout_minutes)`,
with instants in seconds. -/
def is_session_expired (s : Session) (now : Int) (timeout_minutes : Int) : Bool :=
  now - s.last_activity > timeout_minutes * 60

/-- `PDFChatSession.clear_conversation` (pdf_chat_session.py:326-331). -/
def clear_conversation (s : Session) : Session :=
  { s with conversation_history := [], token_usage_history := []
           total_tokens_used := 0 }

/-- Outcomes of the `add_pdf_to_session` endpoint of main.py (HTTP status
of the raised `HTTPException`, or success). -/
inductive UploadOutcome where
  | invalidFileType
  | fileTooLarge
  | nameConflict
  | processingFailed
  | uploaded
deriving DecidableEq, Repr

/-- The `add_pdf_to_session` endpoint of main.py (the validation and load
sequence around lines 670-760).  The transport-level checks are supplied as
booleans (`isPdf`: filename ends in `.pdf`; `sizeOk`: within the configured
ceiling); `display_name` is `pdf_name or file.filename`.  A name already
present in `session.pdfs` is rejected with 409 `PDF_NAME_EXISTS` before
`load_pdf` runs, so the session is untouched; a failing `load_pdf` yields
422 (and `load_pdf` itself made no change). -/
def add_pdf_to_session (s : Session) (isPdf sizeOk : Bool)
    (display_name : String) (now : Int) (fileExists : Bool)
    (temp_path : String) (pdf_info : PDFInfo) (text method : String) :
    Session × UploadOutcome :=
  if !isPdf then (s, UploadOutcome.invalidFileType)
  else if !sizeOk then (s, UploadOutcome.fileTooLarge)
  else if s.pdfs.any (fun p => p.1 == display_name) then (s, UploadOutcome.nameConflict)
  else
    match load_pdf s now fileExists temp_path display_name pdf_info text method with
    | (s2, true) => (s2, UploadOutcome.uploaded)
    | (_, false) => (s, UploadOutcome.processingFailed)

/-- One session-level operation, for stating trace invariants.  The
per-operation clock readings and collaborator results are data of the
operation. -/
inductive SessOp where
  | load (now : Int) (fileExists : Bool) (pdf_path filename : String)
      (info : PDFInfo) (text method : String)
  | remove (filename : String)
  | chat (client : String → Option String → List Turn → Except String String)
      (now now2 : Int) (message : String)
  | clear

/-- Apply one operation to a session, discarding the returned value. -/
def applyOp (s : Session) : SessOp → Session
  | SessOp.load now fe path name info text method =>
      (load_pdf s now fe path name info text method).1
  | SessOp.remove name => (remove_pdf s name).1
  | SessOp.chat client now now2 message =>
      (PDFChatSession.chat s client now now2 message).session
  | SessOp.clear => clear_conversation s

/-- Apply a sequence of operations, first element first. -/
def applyOps (s : Session) (ops : List SessOp) : Session :=
  ops.foldl applyOp s

/-! ## Concrete sample data used by witnesses and counterexamples -/

/-- A concrete extracted document. -/
def sampleDoc : PDFData :=
  { content := "hola mundo", info := { num_pages := 1, file_size := 10 }
    method := "text", uploaded_at := 0, path := "p.pdf" }

/-- The combined content the session builds for the single document
`sampleDoc` under the name `a.pdf`. -/
def sampleCombined : String :=
  (rebuildCombined [("a.pdf", sampleDoc)]).getD ""

/-- A session holding exactly one loaded document. -/
def oneDocSession : Session :=
  (load_pdf (freshSession "s" 0) 1 true "p.pdf" "a.pdf"
    { num_pages := 2, file_size := 100 } "hola mundo" "text").1

/-! ## Helper lemmas -/

/-- `_rebuild_combined_content` leaves the record set untouched. -/
theorem rebuild_pdfs_frame (s : Session) :
    (rebuild_combined_content s).pdfs = s.pdfs := by
  unfold rebuild_combined_content
  cases rebuildCombined s.pdfs <;> rfl

/-- `_rebuild_combined_content` leaves `last_activity` untouched. -/
theorem rebuild_last_activity_frame (s : Session) :
    (rebuild_combined_content s).last_activity = s.last_activity := by
  unfold rebuild_combined_content
  cases rebuildCombined s.pdfs <;> rfl

/-- After `_rebuild_combined_content`, the combined content is the
rebuild of the (unchanged) record set. -/
theorem rebuild_establishes_consistency (s : Session) :
    (rebuild_combined_content s).combined_pdf_content =
      rebuildCombined (rebuild_combined_content s).pdfs := by
  unfold rebuild_combined_content
  cases h : rebuildCombined s.pdfs <;> simp [h]

/-- Every operation preserves consistency of the combined content with the
record set: each mutator either leaves both alone or ends in a rebuild. -/
theorem applyOp_consistent (s : Session) (op : SessOp)
    (h : s.combined_pdf_content = rebuildCombined s.pdfs) :
    (applyOp s op).combined_pdf_content = rebuildCombined (applyOp s op).pdfs := by
  cases op with
  | load now fe path name info text method =>
      simp only [applyOp, load_pdf]
      split
      · exact h
      · split
        · exact h
        · dsimp only
          exact rebuild_establishes_consistency _
  | remove name =>
      simp only [applyOp, remove_pdf]
      split
      · exact h
      · split <;> exact rebuild_establishes_consistency _
  | chat client now now2 message =>
      simp only [applyOp, PDFChatSession.chat]
      split
      · exact h
      · split <;> exact h
  | clear => exact h

/-- Consistency is preserved along any operation sequence. -/
theorem applyOps_consistent (ops : List SessOp) (s : Session)
    (h : s.combined_pdf_content = rebuildCombined s.pdfs) :
    (applyOps s ops).combined_pdf_content = rebuildCombined (applyOps s ops).pdfs := by
  induction ops generalizing s with
  | nil => exact h
  | cons op rest ih =>
      simp only [applyOps, List.foldl] at *
      exact ih (applyOp s op) (applyOp_consistent s op h)

/-! ## Claim theorems -/

/-- C1: after every sequence of session operations (loads, removes, chats,
clears) starting from a fresh session, the combined text is `None` exactly
when no Document Records are present, and otherwise is exactly the
newline-join of one delimited block per currently-present record, in
insertion order, each block being a header, that record's extracted content
once, and a footer; removed records contribute nothing. -/
theorem combined_content_exactly_current_records (sid : String) (t : Int)
    (ops : List SessOp) :
    (applyOps (freshSession sid t) ops).combined_pdf_content =
      rebuildCombined (applyOps (freshSession sid t) ops).pdfs ∧
    rebuildCombined (applyOps (freshSession sid t) ops).pdfs =
      (if (applyOps (freshSession sid t) ops).pdfs.isEmpty then none
       else some (String.intercalate "\n"
         ((List.enumFrom 1 (applyOps (freshSession sid t) ops).pdfs).map fun p =>
           blockBefore p.1 p.2.1 p.2.2 ++ p.2.2.content ++ blockAfter p.1 p.2.1))) :=
  ⟨applyOps_consistent ops (freshSession sid t) rfl, rfl⟩

/-- C5: the token estimator is the deterministic function
`floor(length(text) / 4)`; the empty string estimates to 0. -/
theorem estimate_tokens_floor_div_four :
    (∀ text : String, estimate_tokens text = text.length / 4) ∧
    estimate_tokens "" = 0 :=
  ⟨fun _ => rfl, rfl⟩

/-- C10: for any timeout ≥ 0, a session whose last activity is
`now - (timeout + 1 minute)` is reported expired, and a session whose last
activity is `now` is not. -/
theorem expiry_predicate_boundary (s : Session) (now timeout : Int)
    (h : 0 ≤ timeout) :
    is_session_expired { s with last_activity := now - (timeout * 60 + 60) }
      now timeout = true ∧
    is_session_expired { s with last_activity := now } now timeout = false := by
  unfold is_session_expired
  constructor
  · simp only [decide_eq_true_eq]
    omega
  · simp only [decide_eq_false_iff_not, not_lt]
    omega

/-- Witness for `expiry_predicate_boundary` at timeout 30 minutes. -/
theorem expiry_predicate_witness :
    (0 : Int) ≤ 30 ∧
    (is_session_expired { freshSession "w10" 0 with last_activity := 10000 - (30 * 60 + 60) }
      10000 30 = true ∧
    is_session_expired { freshSession "w10" 0 with last_activity := 10000 } 10000 30 = false) :=
  ⟨by decide, expiry_predicate_boundary (freshSession "w10" 0) 10000 30 (by decide)⟩

/-- C3: with an empty Document Record set, `chat` returns the structured
"No PDFs loaded in this session" failure, the session is unchanged, and the
Conversation Client is invoked zero times. -/
theorem chat_no_docs_fails_without_llm_call (s : Session)
    (client : String → Option String → List Turn → Except String String)
    (now now2 : Int) (message : String) (h : s.pdfs = []) :
    PDFChatSession.chat s client now now2 message =
      { session := s
        result :=
          { success := false, error := some "No PDFs loaded in this session"
            response := none, token_info := none }
        llm_calls := 0 } := by
  simp [PDFChatSession.chat, Session.has_pdfs, h]

/-- Witness for `chat_no_docs_fails_without_llm_call` on a fresh session. -/
theorem chat_no_docs_witness :
    (freshSession "w3" 0).pdfs = [] ∧
    PDFChatSession.chat (freshSession "w3" 0) (fun _ _ _ => Except.ok "ok") 1 2 "hola" =
      { session := freshSession "w3" 0
        result :=
          { success := false, error := some "No PDFs loaded in this session"
            response := none, token_info := none }
        llm_calls := 0 } :=
  ⟨rfl, chat_no_docs_fails_without_llm_call (freshSession "w3" 0) _ 1 2 "hola" rfl⟩

/-- C2 counterexample: on a transport failure the Conversation Client does
not fail with a typed error — it returns the failure to the caller as an
ordinary successful reply string (the apology text with the upstream error
appended), so `isOk` holds of its result. -/
theorem gemini_chat_failure_returned_as_ok :
    GeminiClient.chat (fun _ _ => Except.error "boom") "hola" none [] =
      Except.ok "Lo siento, hubo un error al procesar tu mensaje: boom" ∧
    (GeminiClient.chat (fun _ _ => Except.error "boom") "hola" none []).isOk = true :=
  ⟨rfl, rfl⟩

/-- C2 (amended): on any transport or provider-side failure the
Conversation Client catches the exception and returns, as an ordinary
reply, the apology string carrying the upstream error description; no
exception ever escapes the boundary (every result is an ordinary reply),
but no typed failure value is produced. -/
theorem gemini_chat_wraps_failure_in_apology_reply
    (send : List Turn → String → Except String String)
    (message : String) (pdf_content : Option String) (history : List Turn)
    (e : String)
    (h : send history (build_full_message message pdf_content) = Except.error e) :
    GeminiClient.chat send message pdf_content history =
      Except.ok ("Lo siento, hubo un error al procesar tu mensaje: " ++ e) ∧
    ∀ send2 : List Turn → String → Except String String,
      (GeminiClient.chat send2 message pdf_content history).isOk = true := by
  constructor
  · simp [GeminiClient.chat, h]
  · intro send2
    unfold GeminiClient.chat
    cases send2 history (build_full_message message pdf_content) <;> rfl

/-- Witness for `gemini_chat_wraps_failure_in_apology_reply`. -/
theorem gemini_chat_wraps_failure_witness :
    (fun (_ : List Turn) (_ : String) => (Except.error "x" : Except String String)) []
      (build_full_message "m" none) = Except.error "x" ∧
    GeminiClient.chat (fun _ _ => Except.error "x") "m" none [] =
      Except.ok ("Lo siento, hubo un error al procesar tu mensaje: " ++ "x") :=
  ⟨rfl, (gemini_chat_wraps_failure_in_apology_reply _ "m" none [] "x" rfl).1⟩

/-- C4 counterexample: a Conversation Client exception whose description is
the empty string yields `success = false` but an *empty* `error` field, so
the promised "non-empty error" does not hold for every exception. -/
theorem chat_error_can_be_empty :
    (PDFChatSession.chat oneDocSession (fun _ _ _ => Except.error "") 7 8 "test").result.success
      = false ∧
    (PDFChatSession.chat oneDocSession (fun _ _ _ => Except.error "") 7 8 "test").result.error
      = some "" ∧
    ((PDFChatSession.chat oneDocSession (fun _ _ _ => Except.error "") 7 8 "test").result.error.getD
      "nonempty").isEmpty = true :=
  ⟨rfl, rfl, rfl⟩

/-- C4 (amended): whenever the Conversation Client raises, `chat` catches
the exception and returns a structured result with `success = false`,
`error` equal to the exception's description (hence non-empty exactly when
the description is non-empty), and the user-facing apology text with the
description appended; the session keeps its state except for the already
performed `last_activity` update, and nothing propagates (`chat` is total). -/
theorem chat_client_exception_structured_result (s : Session)
    (client : String → Option String → List Turn → Except String String)
    (now now2 : Int) (message e : String)
    (hdocs : s.has_pdfs = true)
    (hraise : client message s.combined_pdf_content s.conversation_history =
      Except.error e) :
    PDFChatSession.chat s client now now2 message =
      { session := { s with last_activity := now }
        result :=
          { success := false, error := some e
            response := some ("Lo siento, hubo un error al procesar tu mensaje: " ++ e)
            token_info := none }
        llm_calls := 1 } := by
  simp [PDFChatSession.chat, hdocs, hraise]

/-- Witness for `chat_client_exception_structured_result` with a client
stubbed to raise "boom". -/
theorem chat_client_exception_witness :
    oneDocSession.has_pdfs = true ∧
    (fun (_ : String) (_ : Option String) (_ : List Turn) =>
        (Except.error "boom" : Except String String)) "test"
      oneDocSession.combined_pdf_content oneDocSession.conversation_history =
      Except.error "boom" ∧
    PDFChatSession.chat oneDocSession (fun _ _ _ => Except.error "boom") 7 8 "test" =
      { session := { oneDocSession with last_activity := 7 }
        result :=
          { success := false, error := some "boom"
            response := some ("Lo siento, hubo un error al procesar tu mensaje: " ++ "boom")
            token_info := none }
        llm_calls := 1 } :=
  ⟨rfl, rfl,
    chat_client_exception_structured_result oneDocSession _ 7 8 "test" "boom" rfl rfl⟩

/-- C8: uploading a document under a display name already present in the
session is rejected by the endpoint with the 409 name-conflict outcome,
before `load_pdf` runs, leaving the session (and so the existing record)
unchanged. -/
theorem duplicate_name_upload_rejected (s : Session) (display_name : String)
    (now : Int) (fileExists : Bool) (temp_path : String) (info : PDFInfo)
    (text method : String)
    (h : s.pdfs.any (fun p => p.1 == display_name) = true) :
    add_pdf_to_session s true true display_name now fileExists temp_path info
      text method = (s, UploadOutcome.nameConflict) := by
  simp [add_pdf_to_session, h]

/-- Witness for `duplicate_name_upload_rejected`: re-uploading `a.pdf` into
a session already holding it. -/
theorem duplicate_name_upload_witness :
    oneDocSession.pdfs.any (fun p => p.1 == "a.pdf") = true ∧
    add_pdf_to_session oneDocSession true true "a.pdf" 9 true "p2.pdf"
      { num_pages := 1, file_size := 5 } "otro" "text" =
      (oneDocSession, UploadOutcome.nameConflict) :=
  ⟨rfl, duplicate_name_upload_rejected oneDocSession "a.pdf" 9 true "p2.pdf"
    { num_pages := 1, file_size := 5 } "otro" "text" rfl⟩

/-- C9: `clear_conversation` empties the history and the usage log and
resets the cumulative token counter, while the Document Record set and the
combined content are untouched; the subsequent summary therefore reports
message count 0 and cumulative tokens 0 with unchanged document count and
combined-content length. -/
theorem clear_conversation_frame (s : Session) :
    (get_session_summary (clear_conversation s)).message_count = 0 ∧
    (get_session_summary (clear_conversation s)).total_tokens_used = 0 ∧
    (get_session_summary (clear_conversation s)).token_usage_trailing = [] ∧
    (get_session_summary (clear_conversation s)).pdfs_loaded =
      (get_session_summary s).pdfs_loaded ∧
    (get_session_summary (clear_conversation s)).total_content_length =
      (get_session_summary s).total_content_length ∧
    (clear_conversation s).pdfs = s.pdfs ∧
    (clear_conversation s).combined_pdf_content = s.combined_pdf_content ∧
    (clear_conversation s).conversation_history = [] ∧
    (clear_conversation s).token_usage_history = [] ∧
    (clear_conversation s).total_tokens_used = 0 :=
  ⟨rfl, rfl, rfl, rfl, rfl, rfl, rfl, rfl, rfl, rfl⟩

set_option maxRecDepth 4000 in
/-- C6: with exactly one loaded document, the combined content contains the
`"DOCUMENTO #"` marker twice (once in the header, once in
`"FIN DEL DOCUMENTO #"`), so `get_system_prompt`'s multiplicity detector
`count("DOCUMENTO #") > 1` fires and the prompt uses the multiple-documents
wording — not the single-document wording the detector was written to pick
(and the two wordings really differ).  With no documents the base
instruction is returned verbatim, as specified. -/
theorem single_document_triggers_multi_wording :
    get_system_prompt none = base_prompt ∧
    rebuildCombined [("a.pdf", sampleDoc)] = some sampleCombined ∧
    strCount sampleCombined "DOCUMENTO #" = 2 ∧
    get_system_prompt (some sampleCombined) = multiPromptWrap sampleCombined ∧
    multiPromptWrap sampleCombined ≠ singlePromptWrap sampleCombined := by
  refine ⟨rfl, rfl, by decide, ?_, ?_⟩
  · show (if sampleCombined.isEmpty then base_prompt
      else if strCount sampleCombined "DOCUMENTO #" > 1 then
        multiPromptWrap sampleCombined
      else singlePromptWrap sampleCombined) = multiPromptWrap sampleCombined
    rw [if_neg (by decide), if_pos (by decide)]
  · intro h
    have hl := congrArg String.length h
    simp only [multiPromptWrap, singlePromptWrap, String.length_append] at hl
    have e1 : ("\n\nDOCUMENTOS PDF CARGADOS:\n========================\n" : String).length
        = 52 := by decide
    have e2 : ("\n========================\n\nINSTRUCCIONES ESPECIALES:\n- Tienes acceso a MÚLTIPLES documentos PDF\n- Cada documento está claramente separado con su nombre y contenido\n- Cuando respondas, puedes hacer referencia a información de cualquiera de los documentos\n- Si la pregunta se refiere a un documento específico, menciona cuál\n- Si la información está en varios documentos, puedes combinarla en tu respuesta\n- Para resúmenes generales, incluye información relevante de todos los documentos\n\nAhora puedes responder preguntas sobre estos documentos o proporcionar resúmenes si te lo solicitan." : String).length
        = 587 := by decide
    have e3 : ("\n\nDOCUMENTO PDF CARGADO:\n=====================\n" : String).length
        = 47 := by decide
    have e4 : ("\n=====================\n\nAhora puedes responder preguntas sobre este documento o proporcionar un resumen si te lo solicitan." : String).length
        = 123 := by decide
    rw [e1, e2, e3, e4] at hl
    omega

/-- `chat` sets `last_activity` to the current instant exactly when at
least one document is loaded; the no-documents fast path leaves it alone. -/
theorem chat_last_activity (s : Session)
    (client : String → Option String → List Turn → Except String String)
    (now now2 : Int) (message : String) :
    (PDFChatSession.chat s client now now2 message).session.last_activity =
      if s.has_pdfs then now else s.last_activity := by
  by_cases h : s.has_pdfs
  · rw [if_pos h]
    simp only [PDFChatSession.chat, h, Bool.not_true, Bool.false_eq_true, if_false]
    split <;> rfl
  · rw [if_neg h]
    rw [Bool.not_eq_true] at h
    simp [PDFChatSession.chat, h]

/-- `load_pdf` never touches `last_activity`. -/
theorem load_pdf_last_activity (s : Session) (now : Int) (fe : Bool)
    (path name : String) (info : PDFInfo) (text method : String) :
    (load_pdf s now fe path name info text method).1.last_activity =
      s.last_activity := by
  unfold load_pdf
  split
  · rfl
  · split
    · rfl
    · dsimp only
      rw [rebuild_last_activity_frame]
      split <;> rfl

/-- `remove_pdf` never touches `last_activity`. -/
theorem remove_pdf_last_activity (s : Session) (name : String) :
    (remove_pdf s name).1.last_activity = s.last_activity := by
  simp only [remove_pdf]
  split
  · rfl
  · split <;> exact rebuild_last_activity_frame _

/-- C7 counterexample: a successful document load at instant 9 into a
session whose last activity was instant 5 leaves `last_activity` at 5 —
document mutations do not update the last-activity timestamp. -/
theorem load_pdf_does_not_update_last_activity :
    (load_pdf (freshSession "c7" 5) 9 true "p.pdf" "a.pdf"
      { num_pages := 1, file_size := 10 } "hola" "text").2 = true ∧
    (load_pdf (freshSession "c7" 5) 9 true "p.pdf" "a.pdf"
      { num_pages := 1, file_size := 10 } "hola" "text").1.last_activity = 5 ∧
    (5 : Int) ≠ 9 :=
  ⟨rfl, rfl, by decide⟩

/-- C7 (amended): `last_activity` is updated (to the current instant) by
every chat performed with at least one document loaded — including chats
whose client call fails — and by nothing else: document loads, removals and
conversation clears leave it unchanged.  It is therefore monotonically
non-decreasing as long as the clock readings are. -/
theorem last_activity_update_behavior :
    (∀ (s : Session)
        (client : String → Option String → List Turn → Except String String)
        (now now2 : Int) (message : String),
      (PDFChatSession.chat s client now now2 message).session.last_activity =
        if s.has_pdfs then now else s.last_activity) ∧
    (∀ (s : Session) (now : Int) (fe : Bool) (path name : String)
        (info : PDFInfo) (text method : String),
      (load_pdf s now fe path name info text method).1.last_activity =
        s.last_activity) ∧
    (∀ (s : Session) (name : String),
      (remove_pdf s name).1.last_activity = s.last_activity) ∧
    (∀ s : Session, (clear_conversation s).last_activity = s.last_activity) ∧
    (∀ (s : Session)
        (client : String → Option String → List Turn → Except String String)
        (now now2 : Int) (message : String),
      s.last_activity ≤ now →
      s.last_activity ≤
        (PDFChatSession.chat s client now now2 message).session.last_activity) := by
  refine ⟨chat_last_activity, load_pdf_last_activity, remove_pdf_last_activity,
    fun _ => rfl, ?_⟩
  intro s client now now2 message h
  rw [chat_last_activity]
  split
  · exact h
  · exact le_refl _

/-- Witness for `last_activity_update_behavior`: a chat at instant 5 on a
session last active at instant 0 does not decrease `last_activity`. -/
theorem last_activity_update_witness :
    (freshSession "w7" 0).last_activity ≤ 5 ∧
    (freshSession "w7" 0).last_activity ≤
      (PDFChatSession.chat (freshSession "w7" 0) (fun _ _ _ => Except.ok "r") 5 6
        "m").session.last_activity :=
  ⟨by decide,
    last_activity_update_behavior.2.2.2.2 (freshSession "w7" 0) _ 5 6 "m" (by decide)⟩

end PdfInterpreter
